import Mathlib

/-!
Shallow embedding of the two scripts of the
Hospital-Management-Ontology-Design-Pattern repository:

* `src/validation_queries.py` — a query harness `execute_query(query,
  description, limit=10)` that runs a SPARQL query against a module-global
  rdflib `Graph`, prints up to `limit` rows, prints "No results found" for
  empty results and a total count, and catches every exception, printing
  "ERROR executing query: <e>"; plus `main()` which runs the whole battery
  and then prints summary statistics.

* `src/Ontology_queries.py` — a straight-line script with seven query/print
  blocks and no exception handling; the Query 1 loop accesses
  `row.hospital.split('#')[1]` unguarded, while the Query 5 and Query 7
  loops guard the same access with `'#' in ...`.

Python strings are modelled as Lean `String`, RDF graphs as lists of
triples, Python's `None`-or-int return values as `Option Int`, and a raised
exception as an explicit error value (`Option String` / `Except`-style
second component).  All definitions are executable.
-/

/-- An RDF term: a resource identifier, a string literal, or an integer
literal (the literal kinds the embedded queries inspect). -/
inductive RTerm where
  | res (uri : String)
  | str (s : String)
  | int (n : Int)
deriving DecidableEq, Repr

/-- An RDF triple (subject, predicate, object); subject and predicate are
resource identifiers. -/
structure Triple where
  subj : String
  pred : String
  obj : RTerm
deriving DecidableEq, Repr

/-- The rdflib `Graph`: a collection of triples, loaded once. -/
abbrev Graph := List Triple

/-! ### Python string helpers used by the row-printing loops -/

/-- Python's `s.split(sep)` for a one-character separator, on the character
list of the string.  `"".split('#') = ['']`, `"a#b".split('#') = ['a','b']`. -/
def pySplit (sep : Char) : List Char → List (List Char)
  | [] => [[]]
  | c :: cs =>
    let rest := pySplit sep cs
    if c = sep then [] :: rest
    else
      match rest with
      | [] => [c] :: []
      | r :: rs => (c :: r) :: rs

/-- `row.hospital.split('#')[1]` as written in the Query 1 loop of
`Ontology_queries.py` (line 48).  Python raises `IndexError` when the list
has no second element; the embedding returns `none` there. -/
def splitHashIndex1 (s : String) : Option String :=
  ((pySplit '#' s.toList).get? 1).map List.asString

/-- Python's `'#' in s` membership test. -/
def containsHash (s : String) : Bool :=
  s.toList.contains '#'

/-- `row.hospital.split('#')[1] if '#' in row.hospital else row.hospital`
from the Query 5 loop (`Ontology_queries.py` line 187).  Under the guard the
index-1 access always succeeds; `getD` never falls back in that case. -/
def q5HospitalName (s : String) : String :=
  if containsHash s then (splitHashIndex1 s).getD s else s

/-- `row.insurance.split('#')[1] if '#' in row.insurance else row.insurance`
from the Query 7 loop (`Ontology_queries.py` line 247). -/
def q7InsuranceName (s : String) : String :=
  if containsHash s then (splitHashIndex1 s).getD s else s

/-! ### `execute_query` of `validation_queries.py` (lines 35-60) -/

/-- Python `f"{s:30}"`: left-justify, pad with spaces to width 30. -/
def pad30 (s : String) : String :=
  s ++ List.asString (List.replicate (30 - s.length) ' ')

/-- `" | ".join([f"{str(value):30}" for value in row])`; a result row is
modelled as the list of display strings of its bound values. -/
def formatRow (row : List String) : String :=
  String.intercalate " | " (row.map pad30)

/-- The `"="*80` separator line. -/
def eq80 : String := List.asString (List.replicate 80 '=')

/-- Outcome of `g.query(query)`: either a finite list of result rows or a
raised exception with its description `str(e)`. -/
inductive QueryOutcome where
  | ok (rows : List (List String))
  | err (msg : String)
deriving DecidableEq, Repr

/-- Observable result of one `execute_query` call: the graph afterwards (the
function only reads the module-global `g`), the lines printed to stdout, and
the Python return value.  `execute_query` has no `return` statement, so the
return value is `None` (`none`) on every path; `some n` would model
`return n`. -/
structure ExecResult where
  graph : Graph
  output : List String
  ret : Option Int
deriving DecidableEq, Repr

/-- The row loop of `execute_query` (lines 47-52):

    for row in results:
        print(" | ".join(...))
        count += 1
        if count >= limit:
            print("... (results limited)")
            break

Returns the printed row lines, whether the truncation notice was printed
(it can only be printed once, immediately before the break), and the final
value of `count`. -/
def rowLoop (rows : List (List String)) (count : Nat) (limit : Nat) :
    List String × Bool × Nat :=
  match rows with
  | [] => ([], false, count)
  | row :: rest =>
    let line := formatRow row
    let c := count + 1
    if limit ≤ c then ([line], true, c)
    else
      let r := rowLoop rest c limit
      (line :: r.1, r.2.1, r.2.2)

/-- `execute_query(query, description, limit)` (lines 35-60).  The engine
call `g.query(query)` is abstracted by its outcome.  The try/except
catches every exception and prints `"ERROR executing query: " + str(e)`. -/
def executeQuery (g : Graph) (outcome : QueryOutcome) (description : String)
    (limit : Nat) : ExecResult :=
  let header := [eq80, "QUERY: " ++ description, eq80]
  match outcome with
  | .err e => ⟨g, header ++ ["ERROR executing query: " ++ e], none⟩
  | .ok rows =>
    let r := rowLoop rows 0 limit
    let body := r.1 ++ (if r.2.1 then ["... (results limited)"] else [])
    let noRes := if r.2.2 = 0 then ["No results found"] else []
    ⟨g, header ++ body ++ noRes ++ ["Total results: " ++ toString r.2.2],
      none⟩

/-! ### `main()` of `validation_queries.py` (lines 887-922) -/

/-- The summary statistics block at the end of `main()` (lines 906-922),
computed from the loaded graph:

    classes = len(set(g.subjects(RDF.type, OWL.Class)))
    properties = len(set(g.subjects(RDF.type, OWL.ObjectProperty)))
               + len(set(g.subjects(RDF.type, OWL.DatatypeProperty)))
    individuals = len(set(g.subjects(RDF.type, None))) - classes - properties

Python's set sizes are modelled with `eraseDups`; `individuals` uses `Int`
because Python's subtraction may go negative. -/
def summaryLines (g : Graph) : List String :=
  let subjectsOfType := fun (cls : String) =>
    (((g.filter fun t =>
        t.pred == "rdf:type" && t.obj == RTerm.res cls).map Triple.subj).eraseDups).length
  let classes := subjectsOfType "owl:Class"
  let properties :=
    subjectsOfType "owl:ObjectProperty" + subjectsOfType "owl:DatatypeProperty"
  let typedSubjects :=
    (((g.filter fun t => t.pred == "rdf:type").map Triple.subj).eraseDups).length
  let individuals : Int := (typedSubjects : Int) - classes - properties
  ["VALIDATION COMPLETE - All 42 competency questions executed",
   "ONTOLOGY SUMMARY STATISTICS:",
   "Total Triples: " ++ toString g.length,
   "Classes: " ++ toString classes,
   "Properties: " ++ toString properties,
   "Individuals: " ++ toString individuals,
   "Queries Executed: 42",
   "Validation Status: COMPLETE"]

/-- `main()`: runs every query of the battery in order through
`execute_query` (the battery is the list of engine outcomes, descriptions
and limits), threading the module-global graph through the calls, then
prints the summary block.  Returns (graph afterwards, stdout lines, process
exit code).  The script ends normally, so the exit code is 0; a query
failure is caught inside `execute_query` and cannot abort `main`.
One step of the battery is `validationStep`: it performs one
`execute_query` call and accumulates its stdout lines. -/
def validationStep (st : Graph × List String)
    (q : QueryOutcome × String × Nat) : Graph × List String :=
  let r := executeQuery st.1 q.1 q.2.1 q.2.2
  (r.graph, st.2 ++ r.output)

/-- See `validationStep`: `main()` folds the battery through it and then
prints the summary block. -/
def validationMain (g : Graph)
    (queries : List (QueryOutcome × String × Nat)) :
    Graph × List String × Nat :=
  let s := queries.foldl validationStep
    (g, ["HOSPITAL MANAGEMENT ONTOLOGY - SPARQL VALIDATION SUITE"])
  (s.1, s.2 ++ summaryLines s.1, 0)

/-! ### `Ontology_queries.py` — straight-line script, no exception handling -/

/-- A result row of Query 1 (senior doctors), with the fields the print
loop reads. -/
structure OQ1Row where
  firstName : String
  lastName : String
  specialization : String
  yearsExperience : Int
  hospital : String
deriving DecidableEq, Repr

/-- A result row of Query 5 (doctors by specialization and hospital). -/
structure OQ5Row where
  specialization : String
  hospital : String
  doctorCount : Nat
deriving DecidableEq, Repr

/-- A result row of Query 7 (elderly patients). -/
structure OQ7Row where
  firstName : String
  lastName : String
  dateOfBirth : String
  age : Int
  insurance : String
deriving DecidableEq, Repr

/-- The `"-"*50` separator line. -/
def dash50 : String := List.asString (List.replicate 50 '-')

/-- The Query 1 print loop (`Ontology_queries.py` lines 44-49):

    for row in results1:
        print(f"الطبيب: {row.firstName} {row.lastName}")
        print(f"التخصص: {row.specialization}")
        print(f"سنوات الخبرة: {row.yearsExperience}")
        print(f"مكان العمل: {row.hospital.split('#')[1]}")
        print("-" * 50)

The hospital line indexes `split('#')[1]` unguarded; when it fails the
loop stops with the raised `IndexError` after the three preceding prints
(second component `some e`). -/
def results1Loop : List OQ1Row → List String × Option String
  | [] => ([], none)
  | r :: rs =>
    let pre := ["الطبيب: " ++ r.firstName ++ " " ++ r.lastName,
                "التخصص: " ++ r.specialization,
                "سنوات الخبرة: " ++ toString r.yearsExperience]
    match splitHashIndex1 r.hospital with
    | none => (pre, some "IndexError: list index out of range")
    | some h =>
      let rest := results1Loop rs
      (pre ++ ["مكان العمل: " ++ h, dash50] ++ rest.1, rest.2)

/-- The Query 5 print loop (lines 186-188); the guarded access makes it
total. -/
def results5Loop (rows : List OQ5Row) : List String :=
  rows.map fun r =>
    "التخصص: " ++ r.specialization ++ " - المستشفى: " ++ q5HospitalName r.hospital
      ++ " - عدد الأطباء: " ++ toString r.doctorCount

/-- The Query 7 print loop (lines 246-251); the guarded access makes it
total. -/
def results7Loop (rows : List OQ7Row) : List String :=
  rows.flatMap fun r =>
    ["المريض: " ++ r.firstName ++ " " ++ r.lastName,
     "تاريخ الميلاد: " ++ r.dateOfBirth ++ " - العمر: " ++ toString r.age ++ " سنة",
     "مزود التأمين: " ++ q7InsuranceName r.insurance,
     dash50]

/-- The problem-rate computation (`Ontology_queries.py` line 132):

    problem_rate = (problem_count / total_appointments) * 100
                   if total_appointments > 0 else 0

Python float division is modelled over ℚ; the conditional makes the
function total with value 0 at denominator 0. -/
def problem_rate (problem_count total_appointments : Nat) : ℚ :=
  if total_appointments > 0 then
    ((problem_count : ℚ) / (total_appointments : ℚ)) * 100
  else 0

/-- The module top level of `Ontology_queries.py`, restricted to the blocks
the claims depend on: the header prints, the Query 1 loop (fallible), the
appointment totals and problem rate, the Query 5 and Query 7 loops (total),
and the final success line.  (The Query 2, 3, 4 and 6 blocks sit between
these in the same straight line and add nothing to the control flow
modelled here: none of them can intercept an exception.)  There is no
try/except anywhere, so an exception raised in the Query 1 loop aborts the
script: no later output is produced, the final success line is never
printed, and the process exit code is nonzero (`some e` in the last
component; `none` means normal termination, exit code 0). -/
def ontologyMain (g : Graph) (rows1 : List OQ1Row)
    (problem_count total_appointments : Nat)
    (rows5 : List OQ5Row) (rows7 : List OQ7Row) :
    Graph × List String × Option String :=
  let hdr := ["✅ تم تحميل الأنطولوجيا بنجاح | Ontology loaded successfully",
              "📊 عدد البيانات الثلاثية: " ++ toString g.length,
              "Query 1: Senior Doctors (experience > 15 years)"]
  let l1 := results1Loop rows1
  match l1.2 with
  | some e => (g, hdr ++ l1.1, some e)
  | none =>
    let out := hdr ++ l1.1
      ++ ["📈 العدد الإجمالي: " ++ toString rows1.length ++ " طبيب مخضرم",
          "📊 إجمالي عدد المواعيد: " ++ toString total_appointments,
          "⚠️ معدل المشاكل (إلغاء/عدم حضور): "
            ++ toString (problem_rate problem_count total_appointments) ++ "%"]
      ++ results5Loop rows5 ++ results7Loop rows7
      ++ ["🎉 اكتملت جميع الاستعلامات بنجاح! | All queries completed successfully!"]
    (g, out, none)

/-! ### SPARQL semantics of Query 1 of `Ontology_queries.py` (lines 20-37)

Prefixed names (`hodp:`, `rdf:`, `rdfs:`) stand for the expanded URIs of
the query's PREFIX declarations; the embedding keeps the compact prefixed
form as the identifier string. -/

/-- Objects `o` of the triples `(s, p, o)` in `g`. -/
def objectsOf (g : Graph) (s p : String) : List RTerm :=
  (g.filter fun t => t.subj == s && t.pred == p).map Triple.obj

/-- Objects of `(s, p, ·)` that are resource identifiers (the only terms a
further triple pattern can use as subject). -/
def resObjectsOf (g : Graph) (s p : String) : List String :=
  (objectsOf g s p).filterMap fun o =>
    match o with
    | .res u => some u
    | _ => none

/-- One solution of Query 1's SELECT clause. -/
structure Q1Row where
  doctor : String
  firstName : RTerm
  lastName : RTerm
  specialization : RTerm
  yearsExperience : RTerm
  hospital : String
deriving DecidableEq, Repr

/-- `FILTER (?yearsExperience > 15)`: a SPARQL numeric comparison holds
only for numeric terms; on a non-numeric term the filter errors and the
solution is dropped. -/
def q1Filter (r : Q1Row) : Bool :=
  match r.yearsExperience with
  | .int n => 15 < n
  | _ => false

/-- Sort key for `ORDER BY DESC(?yearsExperience)`; after `q1Filter` every
kept solution has an integer experience. -/
def q1Key (r : Q1Row) : Int :=
  match r.yearsExperience with
  | .int n => n
  | _ => 0

/-- Insert into a list sorted by descending `q1Key`. -/
def insertExpDesc (r : Q1Row) : List Q1Row → List Q1Row
  | [] => [r]
  | x :: xs =>
    if q1Key r ≤ q1Key x then x :: insertExpDesc r xs
    else r :: x :: xs

/-- `ORDER BY DESC(?yearsExperience)` as insertion sort. -/
def orderByExpDesc : List Q1Row → List Q1Row
  | [] => []
  | x :: xs => insertExpDesc x (orderByExpDesc xs)

/-- Evaluation of Query 1: join the seven triple patterns of the WHERE
clause, apply the FILTER, then ORDER BY DESC(?yearsExperience).

    ?doctor rdf:type hodp:Doctor .
    ?doctor hodp:firstName ?firstName .
    ?doctor hodp:lastName ?lastName .
    ?doctor hodp:hasSpecialization ?spec .
    ?spec rdfs:label ?specialization .
    ?doctor hodp:yearsExperience ?yearsExperience .
    ?doctor hodp:worksAt ?hospital .
    FILTER (?yearsExperience > 15)
-/
def query1Eval (g : Graph) : List Q1Row :=
  let doctors :=
    (g.filter fun t =>
      t.pred == "rdf:type" && t.obj == RTerm.res "hodp:Doctor").map Triple.subj
  let solutions := doctors.flatMap fun d =>
    (objectsOf g d "hodp:firstName").flatMap fun fn =>
    (objectsOf g d "hodp:lastName").flatMap fun ln =>
    (resObjectsOf g d "hodp:hasSpecialization").flatMap fun sp =>
    (objectsOf g sp "rdfs:label").flatMap fun spl =>
    (objectsOf g d "hodp:yearsExperience").flatMap fun ye =>
    (resObjectsOf g d "hodp:worksAt").map fun h =>
      Q1Row.mk d fn ln spl ye h
  orderByExpDesc (solutions.filter q1Filter)

/-- The scenario fixture: exactly 3 Doctor individuals with
`yearsExperience` 10, 16 and 20, each with the firstName, lastName,
hasSpecialization (with rdfs:label) and worksAt triples Query 1 requires. -/
def fixture3Doctors : Graph :=
  [⟨"hodp:doc1", "rdf:type", .res "hodp:Doctor"⟩,
   ⟨"hodp:doc1", "hodp:firstName", .str "Aisha"⟩,
   ⟨"hodp:doc1", "hodp:lastName", .str "Hassan"⟩,
   ⟨"hodp:doc1", "hodp:hasSpecialization", .res "hodp:spec1"⟩,
   ⟨"hodp:doc1", "hodp:yearsExperience", .int 10⟩,
   ⟨"hodp:doc1", "hodp:worksAt", .res "hodp:hosp1"⟩,
   ⟨"hodp:doc2", "rdf:type", .res "hodp:Doctor"⟩,
   ⟨"hodp:doc2", "hodp:firstName", .str "Omar"⟩,
   ⟨"hodp:doc2", "hodp:lastName", .str "Ali"⟩,
   ⟨"hodp:doc2", "hodp:hasSpecialization", .res "hodp:spec2"⟩,
   ⟨"hodp:doc2", "hodp:yearsExperience", .int 16⟩,
   ⟨"hodp:doc2", "hodp:worksAt", .res "hodp:hosp1"⟩,
   ⟨"hodp:doc3", "rdf:type", .res "hodp:Doctor"⟩,
   ⟨"hodp:doc3", "hodp:firstName", .str "Sara"⟩,
   ⟨"hodp:doc3", "hodp:lastName", .str "Idris"⟩,
   ⟨"hodp:doc3", "hodp:hasSpecialization", .res "hodp:spec1"⟩,
   ⟨"hodp:doc3", "hodp:yearsExperience", .int 20⟩,
   ⟨"hodp:doc3", "hodp:worksAt", .res "hodp:hosp2"⟩,
   ⟨"hodp:spec1", "rdfs:label", .str "Cardiology"⟩,
   ⟨"hodp:spec2", "rdfs:label", .str "Neurology"⟩]

/-! ### Helper lemmas -/

/-- `execute_query` hands the module-global graph back unchanged on both
the success and the exception path. -/
theorem executeQuery_graph (g : Graph) (o : QueryOutcome) (d : String)
    (l : Nat) : (executeQuery g o d l).graph = g := by
  cases o <;> rfl

/-- `execute_query`'s Python return value is `None` on every path. -/
theorem executeQuery_ret (g : Graph) (o : QueryOutcome) (d : String)
    (l : Nat) : (executeQuery g o d l).ret = none := by
  cases o <;> rfl

/-- If the loop starts below the limit and the rows suffice to reach it,
the truncation notice is printed, the final count is exactly the limit, and
the number of printed row lines is `limit - count`. -/
theorem rowLoop_reach (rows : List (List String)) (limit : Nat) :
    ∀ count, count < limit → limit ≤ count + rows.length →
      (rowLoop rows count limit).2.1 = true ∧
      (rowLoop rows count limit).2.2 = limit ∧
      (rowLoop rows count limit).1.length = limit - count := by
  induction rows with
  | nil =>
    intro count hc hlen
    simp at hlen
    omega
  | cons row rest ih =>
    intro count hc hlen
    by_cases h : limit ≤ count + 1
    · have hlim : limit = count + 1 := by omega
      simp [rowLoop, h, hlim]
    · have h1 : count + 1 < limit := by omega
      have h2 : limit ≤ count + 1 + rest.length := by
        simp at hlen
        omega
      obtain ⟨ha, hb, hcnt⟩ := ih (count + 1) h1 h2
      simp [rowLoop, h, ha, hb, hcnt]
      omega

/-- If the rows run out strictly before the limit is reached, every row is
printed, no truncation notice appears, and the count grows by the number of
rows. -/
theorem rowLoop_all (rows : List (List String)) (limit : Nat) :
    ∀ count, count + rows.length < limit →
      (rowLoop rows count limit).2.1 = false ∧
      (rowLoop rows count limit).2.2 = count + rows.length ∧
      (rowLoop rows count limit).1.length = rows.length := by
  induction rows with
  | nil =>
    intro count _
    simp [rowLoop]
  | cons row rest ih =>
    intro count hlen
    simp at hlen
    have h : ¬ limit ≤ count + 1 := by omega
    have h2 : count + 1 + rest.length < limit := by omega
    obtain ⟨ha, hb, hcnt⟩ := ih (count + 1) h2
    simp [rowLoop, h, ha, hb, hcnt]
    omega

/-- Splitting on a separator that does not occur in the character list
yields the singleton list. -/
theorem pySplit_not_mem (sep : Char) :
    ∀ cs : List Char, cs.contains sep = false → pySplit sep cs = [cs] := by
  intro cs
  induction cs with
  | nil => intro _; rfl
  | cons c cs ih =>
    intro h
    simp [List.contains_cons] at h
    rw [pySplit, ih (by simpa using h.2)]
    have hne : ¬ c = sep := fun hh => h.1 hh.symm
    simp [hne]

/-- When the identifier contains no `'#'`, the unguarded `split('#')[1]`
access has no element to return: the `IndexError` case. -/
theorem splitHashIndex1_none (s : String) (h : containsHash s = false) :
    splitHashIndex1 s = none := by
  unfold splitHashIndex1
  rw [pySplit_not_mem '#' s.toList h]
  rfl

/-- Folding any battery of queries through `validationStep` leaves the
graph component untouched. -/
theorem foldl_validationStep_graph (g : Graph) :
    ∀ (qs : List (QueryOutcome × String × Nat)) (acc : List String),
      (qs.foldl validationStep (g, acc)).1 = g := by
  intro qs
  induction qs with
  | nil => intro acc; rfl
  | cons q qs ih =>
    intro acc
    have hstep : validationStep (g, acc) q =
        (g, acc ++ (executeQuery g q.1 q.2.1 q.2.2).output) := by
      simp [validationStep, executeQuery_graph]
    rw [List.foldl_cons, hstep]
    exact ih _

/-- `main()` of `validation_queries.py` leaves the graph untouched. -/
theorem validationMain_graph (g : Graph)
    (queries : List (QueryOutcome × String × Nat)) :
    (validationMain g queries).1 = g := by
  unfold validationMain
  simp [foldl_validationStep_graph]

/-- The `Ontology_queries.py` script leaves the graph untouched, whether or
not the Query 1 loop raises. -/
theorem ontologyMain_graph (g : Graph) (rows1 : List OQ1Row)
    (pc ta : Nat) (r5 : List OQ5Row) (r7 : List OQ7Row) :
    (ontologyMain g rows1 pc ta r5 r7).1 = g := by
  unfold ontologyMain
  cases h : (results1Loop rows1).2 <;> simp [h]

/-! ### Claims -/

/-- Claim C1, counterexample.  The claim asserts that on a collaborator
exception `execute_query` returns a failure sentinel distinct from any
success return value.  In fact the function has no `return` statement: the
exception path returns `None`, exactly the value every success path
returns, so no distinguished sentinel exists. -/
theorem c1_counterexample :
    (executeQuery [] (.err "parse failure") "q" 10).ret =
      (executeQuery [] (.ok [["a"]]) "q" 10).ret ∧
    (executeQuery [] (.err "parse failure") "q" 10).ret = none := by
  exact ⟨rfl, rfl⟩

/-- Claim C1 (amended): when the collaborator raises, `execute_query`
catches the failure, prints an error message that includes the failure
description, and returns `None` — the same value as on success, not a
distinguished sentinel; the graph is untouched and a subsequent query in
the same session behaves exactly as it would have without the earlier
failure. -/
theorem c1_error_isolated (g : Graph) (e d : String) (l : Nat)
    (o2 : QueryOutcome) (d2 : String) (l2 : Nat) :
    ("ERROR executing query: " ++ e) ∈ (executeQuery g (.err e) d l).output ∧
    (executeQuery g (.err e) d l).ret = none ∧
    (executeQuery g (.err e) d l).graph = g ∧
    executeQuery (executeQuery g (.err e) d l).graph o2 d2 l2 =
      executeQuery g o2 d2 l2 := by
  refine ⟨?_, rfl, rfl, rfl⟩
  simp [executeQuery]

/-- Claim C2, counterexample.  The claim asserts that on a valid query with
an empty result sequence `execute_query` returns 0.  It prints
"No results found", but the function has no `return` statement, so it
returns `None` rather than the integer 0. -/
theorem c2_counterexample :
    (executeQuery [] (.ok []) "q" 10).ret ≠ some 0 ∧
    "No results found" ∈ (executeQuery [] (.ok []) "q" 10).output := by
  exact ⟨by decide, by decide⟩

/-- Claim C2 (amended): for a valid query with an empty result sequence,
`execute_query` prints "No results found" and a reported total of 0, never
raises, and returns `None` (the function has no return value). -/
theorem c2_empty_results (g : Graph) (d : String) (limit : Nat) :
    "No results found" ∈ (executeQuery g (.ok []) d limit).output ∧
    "Total results: 0" ∈ (executeQuery g (.ok []) d limit).output ∧
    (executeQuery g (.ok []) d limit).ret = none := by
  refine ⟨?_, ?_, rfl⟩
  · simp [executeQuery, rowLoop]
  · simp [executeQuery, rowLoop]
    exact Or.inr (Or.inr (Or.inr (by decide)))

/-- Claim C3, counterexample.  The claim asserts, for every call whose
result has strictly more rows than the row limit, that exactly `row_limit`
rows are printed and that the reported count never exceeds `row_limit`.
With `row_limit = 0` and one result row, 1 > 0 rows are printed and the
reported total is 1 > 0: the guard `count >= limit` is checked only after
the first row is printed. -/
theorem c3_counterexample :
    (rowLoop [["a"]] 0 0).1.length = 1 ∧
    (rowLoop [["a"]] 0 0).2.2 = 1 ∧
    "Total results: 1" ∈ (executeQuery [] (.ok [["a"]]) "q" 0).output := by
  exact ⟨by decide, by decide, by decide⟩

/-- Claim C3 (amended): for every row limit ≥ 1 and every result sequence
with strictly more rows than the limit, `execute_query` prints exactly
`row_limit` rows, prints the truncation notice, reports a total equal to
`row_limit` (not the true total), and the reported count never exceeds
`row_limit`; the Python return value is `None` in any case. -/
theorem c3_truncation (g : Graph) (d : String) (rows : List (List String))
    (limit : Nat) (h1 : 1 ≤ limit) (h2 : limit < rows.length) :
    (rowLoop rows 0 limit).1.length = limit ∧
    (rowLoop rows 0 limit).2.1 = true ∧
    (rowLoop rows 0 limit).2.2 = limit ∧
    "... (results limited)" ∈ (executeQuery g (.ok rows) d limit).output ∧
    ("Total results: " ++ toString limit) ∈
      (executeQuery g (.ok rows) d limit).output ∧
    (executeQuery g (.ok rows) d limit).ret = none := by
  obtain ⟨ha, hb, hc⟩ := rowLoop_reach rows limit 0 (by omega) (by omega)
  have hz : ¬ limit = 0 := by omega
  refine ⟨by omega, ha, hb, ?_, ?_, rfl⟩ <;>
    simp [executeQuery, ha, hb, hz]

/-- Claim C3, witness: three result rows against limit 2. -/
theorem c3_witness :
    (rowLoop [["a"], ["b"], ["c"]] 0 2).1.length = 2 ∧
    (rowLoop [["a"], ["b"], ["c"]] 0 2).2.1 = true ∧
    (rowLoop [["a"], ["b"], ["c"]] 0 2).2.2 = 2 ∧
    "... (results limited)" ∈
      (executeQuery [] (.ok [["a"], ["b"], ["c"]]) "q" 2).output ∧
    ("Total results: " ++ toString 2) ∈
      (executeQuery [] (.ok [["a"], ["b"], ["c"]]) "q" 2).output ∧
    (executeQuery [] (.ok [["a"], ["b"], ["c"]]) "q" 2).ret = none :=
  c3_truncation [] "q" [["a"], ["b"], ["c"]] 2 (by decide) (by decide)

/-- Claim C4, counterexample.  The claim asserts that row limit 0 means
unlimited, every row being printed.  In fact with limit 0 and three result
rows only one row is printed: after the first row `count = 1 >= 0` fires
the break. -/
theorem c4_counterexample :
    (rowLoop [["a"], ["b"], ["c"]] 0 0).1.length = 1 ∧
    (rowLoop [["a"], ["b"], ["c"]] 0 0).1.length ≠
      ([["a"], ["b"], ["c"]] : List (List String)).length ∧
    "Total results: 1" ∈
      (executeQuery [] (.ok [["a"], ["b"], ["c"]]) "q" 0).output := by
  exact ⟨by decide, by decide, by decide⟩

/-- Claim C4 (amended): row limit 0 does not mean unlimited.  For any
nonempty result sequence, `execute_query` with limit 0 prints exactly one
row followed by the truncation notice and reports a total of 1; for an
empty sequence it prints nothing. -/
theorem c4_limit_zero (g : Graph) (d : String) (row : List String)
    (rest : List (List String)) :
    rowLoop (row :: rest) 0 0 = ([formatRow row], true, 1) ∧
    rowLoop ([] : List (List String)) 0 0 = ([], false, 0) ∧
    "... (results limited)" ∈
      (executeQuery g (.ok (row :: rest)) d 0).output ∧
    "Total results: 1" ∈ (executeQuery g (.ok (row :: rest)) d 0).output := by
  refine ⟨rfl, rfl, ?_, ?_⟩
  · simp [executeQuery, rowLoop]
  · simp [executeQuery, rowLoop]
    exact Or.inr (Or.inr (Or.inr (Or.inr (by decide))))

/-- Claim C5, counterexample.  The claim asserts that for both source files
the run completes with exit code 0 regardless of per-query failures and
always reaches its final summary step.  `Ontology_queries.py` has no
exception handling: with a Query 1 result row whose hospital identifier
contains no `'#'`, the unguarded `split('#')[1]` raises, the script aborts
(nonzero exit) and the final success line is never printed. -/
theorem c5_counterexample :
    (ontologyMain [] [⟨"Omar", "Ali", "Cardiology", 20, "hospital1"⟩]
      1 10 [] []).2.2 = some "IndexError: list index out of range" ∧
    "🎉 اكتملت جميع الاستعلامات بنجاح! | All queries completed successfully!" ∉
      (ontologyMain [] [⟨"Omar", "Ali", "Cardiology", 20, "hospital1"⟩]
        1 10 [] []).2.1 := by
  exact ⟨by decide, by decide⟩

/-- Claim C5 (amended): in `validation_queries.py` every per-query failure
is caught inside `execute_query`, so `main()` always reaches its final
summary block and the process exits with code 0 — for every battery of
query outcomes, including ones where every query fails.  The same does not
hold for `Ontology_queries.py`, whose top level has no exception handling:
a failure inside a query loop aborts the script before the final success
line (see the counterexample). -/
theorem c5_validation_completes (g : Graph)
    (queries : List (QueryOutcome × String × Nat)) :
    (validationMain g queries).2.2 = 0 ∧
    "VALIDATION COMPLETE - All 42 competency questions executed" ∈
      (validationMain g queries).2.1 := by
  refine ⟨rfl, ?_⟩
  unfold validationMain summaryLines
  simp

/-- Claim C6: the problem-rate computation yields exactly 0 when the total
appointment count is 0 — the conditional expression, not a division, decides
that case, so no division-by-zero fault can occur and the function is total;
on the spec's scenario counts (3 problem appointments out of 10) it yields
30. -/
theorem c6_zero_denominator (problem_count : Nat) :
    problem_rate problem_count 0 = 0 ∧ problem_rate 3 10 = 30 := by
  constructor
  · simp [problem_rate]
  · norm_num [problem_rate]

/-- Claim C7: on a graph with exactly 3 Doctor individuals whose
`yearsExperience` values are 10, 16 and 20 (each with the firstName,
lastName, hasSpecialization with rdfs:label, and worksAt triples Query 1
requires), Query 1 — FILTER (?yearsExperience > 15), ORDER BY
DESC(?yearsExperience) — returns exactly 2 rows, with experiences in
descending order [20, 16]. -/
theorem c7_senior_doctors :
    (query1Eval fixture3Doctors).length = 2 ∧
    (query1Eval fixture3Doctors).map Q1Row.yearsExperience =
      [.int 20, .int 16] := by
  exact ⟨by decide, by decide⟩

/-- Claim C8: no query execution mutates the loaded graph — `execute_query`
returns the module-global graph unchanged on every path, the whole
`main()` battery of `validation_queries.py` leaves it unchanged, and the
`Ontology_queries.py` script leaves it unchanged whether or not a loop
raises; the scripts' only effect is the stdout output the model returns
alongside the graph. -/
theorem c8_graph_immutable (g : Graph) (o : QueryOutcome) (d : String)
    (l : Nat) (queries : List (QueryOutcome × String × Nat))
    (rows1 : List OQ1Row) (pc ta : Nat)
    (r5 : List OQ5Row) (r7 : List OQ7Row) :
    (executeQuery g o d l).graph = g ∧
    (validationMain g queries).1 = g ∧
    (ontologyMain g rows1 pc ta r5 r7).1 = g :=
  ⟨executeQuery_graph g o d l, validationMain_graph g queries,
    ontologyMain_graph g rows1 pc ta r5 r7⟩

/-- Claim C9, counterexample.  The claim asserts the truncation notice is
printed whenever the result sequence contains exactly `row_limit` rows.
With `row_limit = 0` and an empty result (exactly 0 rows) the loop body
never runs, so no notice is printed — "No results found" appears instead. -/
theorem c9_counterexample :
    ([] : List (List String)).length = 0 ∧
    "... (results limited)" ∉
      (executeQuery [] (.ok ([] : List (List String))) "q" 0).output ∧
    "No results found" ∈
      (executeQuery [] (.ok ([] : List (List String))) "q" 0).output := by
  exact ⟨rfl, by decide, by decide⟩

/-- Claim C9 (amended): for every row limit ≥ 1, when the result sequence
contains exactly `row_limit` rows — no rows are withheld — `execute_query`
still prints the truncation notice, because the `count >= limit` check
fires on the last row regardless of whether further rows exist. -/
theorem c9_exact_limit (g : Graph) (d : String) (rows : List (List String))
    (limit : Nat) (h1 : 1 ≤ limit) (h2 : rows.length = limit) :
    (rowLoop rows 0 limit).2.1 = true ∧
    (rowLoop rows 0 limit).2.2 = limit ∧
    "... (results limited)" ∈ (executeQuery g (.ok rows) d limit).output := by
  obtain ⟨ha, hb, _⟩ := rowLoop_reach rows limit 0 (by omega) (by omega)
  refine ⟨ha, hb, ?_⟩
  simp [executeQuery, ha]

/-- Claim C9, witness: a single result row against limit 1. -/
theorem c9_witness :
    (rowLoop [["a"]] 0 1).2.1 = true ∧
    (rowLoop [["a"]] 0 1).2.2 = 1 ∧
    "... (results limited)" ∈ (executeQuery [] (.ok [["a"]]) "q" 1).output :=
  c9_exact_limit [] "q" [["a"]] 1 (by decide) (by decide)

/-- Claim C10: the Query 1 row-printing step of `Ontology_queries.py` is
partial — for every hospital identifier without a `'#'` the unguarded
`split('#')[1]` has no element 1, the `IndexError` case (`none`), and the
Query 1 loop stops with that error on such a row — while the guarded
accesses of Query 5 and Query 7 fall back to the full identifier and never
raise. -/
theorem c10_split_partiality (s : String) (h : containsHash s = false) :
    splitHashIndex1 s = none ∧
    q5HospitalName s = s ∧
    q7InsuranceName s = s ∧
    (results1Loop [⟨"Omar", "Ali", "Cardiology", 20, s⟩]).2 =
      some "IndexError: list index out of range" := by
  have h1 := splitHashIndex1_none s h
  refine ⟨h1, ?_, ?_, ?_⟩
  · simp [q5HospitalName, h]
  · simp [q7InsuranceName, h]
  · simp [results1Loop, h1]

/-- Claim C10, witness: the identifier "hospital1" contains no `'#'`. -/
theorem c10_witness :
    splitHashIndex1 "hospital1" = none ∧
    q5HospitalName "hospital1" = "hospital1" ∧
    q7InsuranceName "hospital1" = "hospital1" ∧
    (results1Loop [⟨"Omar", "Ali", "Cardiology", 20, "hospital1"⟩]).2 =
      some "IndexError: list index out of range" :=
  c10_split_partiality "hospital1" (by decide)
